import Mathlib

set_option autoImplicit false

/-!
Shallow embedding of the security reminder hook
(src/plugins/security-guidance/hooks/security_reminder_hook.py).

The hook is a one-shot process: it reads a JSON object from standard input,
matches the target file path and new content against a fixed rule table,
deduplicates warnings through a per-session state file, and exits with
code 0 (allow) or 2 (block, after printing the remediation text to stderr).

Modelling choices:
- JSON values are modelled by the inductive `Json` (numbers as `Int`;
  no claim depends on float semantics).
- Reading stdin is modelled as `Option Json`: `none` stands for input text
  that is not parseable as JSON (`json.JSONDecodeError`).
- The environment variable `ENABLE_SECURITY_REMINDER` is passed in as an
  `Option String` (its value, or `none` when unset).
- The call `random.random() < 0.1` that gates the periodic cleanup is
  passed in as a `Bool` parameter `doCleanup`.
- The wall clock (`datetime.now().timestamp()`, `os.path.getmtime`) is an
  `Int` parameter `now`; state files carry their mtime.
- The filesystem is modelled by `FS`: the collection of per-session state
  files under the fixed user-config directory `~/.claude`.  A file name
  `security_warnings_state_{session_id}.json` is determined by the session
  id, so files are keyed directly by the session id value; every tracked
  file matches the prefix/suffix scanned by `cleanup_old_state_files`.
  A state file whose stored `content` is `none` stands for a file that is
  unreadable or not valid JSON (`load_state` then returns the empty set).
- A possible `IOError` while writing the state file is modelled by the
  Bool parameter `saveOk` of `main` (the exception is caught and ignored
  by `save_state`).
- Python exceptions that the source does NOT catch (for example the
  `AttributeError` raised by `input_data.get` when the parsed JSON is not
  an object, or the `TypeError` raised by `substring in content` when the
  content value is a number) abort the interpreter with a traceback and a
  nonzero exit status; such runs are modelled by the outcome `crash`.
-/

/-- A JSON value, as produced by `json.loads`.  Object fields keep their
textual order; `dictGetD` applies the last-binding-wins rule of Python
dict construction. -/
inductive Json where
  | null
  | bool (b : Bool)
  | num (n : Int)
  | str (s : String)
  | arr (xs : List Json)
  | obj (fields : List (String × Json))

mutual

/-- Structural (Python `==`) equality test on JSON values. -/
def Json.beq : Json → Json → Bool
  | .null, .null => true
  | .bool a, .bool b => a == b
  | .num a, .num b => a == b
  | .str a, .str b => a == b
  | .arr a, .arr b => Json.beqArr a b
  | .obj a, .obj b => Json.beqObj a b
  | _, _ => false

/-- Pointwise equality test on JSON arrays. -/
def Json.beqArr : List Json → List Json → Bool
  | [], [] => true
  | a :: as, b :: bs => Json.beq a b && Json.beqArr as bs
  | _, _ => false

/-- Pointwise equality test on JSON object field lists. -/
def Json.beqObj : List (String × Json) → List (String × Json) → Bool
  | [], [] => true
  | (k1, v1) :: as, (k2, v2) :: bs => k1 == k2 && Json.beq v1 v2 && Json.beqObj as bs
  | _, _ => false

end

instance : BEq Json := ⟨Json.beq⟩

/-- Python truthiness (`if not x` / `if x`) for the JSON values the hook
tests: `None`, `False`, `0`, the empty string, the empty list and the
empty dict are falsy. -/
def pyFalsy : Json → Bool
  | .null => true
  | .bool b => !b
  | .num n => n == 0
  | .str s => s.data.isEmpty
  | .arr xs => xs.isEmpty
  | .obj fields => fields.isEmpty

/-- Python `dict.get(k, dflt)` on an object built by `json.loads`: the last
binding of a duplicated key wins. -/
def dictGetD (fields : List (String × Json)) (k : String) (dflt : Json) : Json :=
  (fields.foldl (fun acc kv => if kv.1 == k then some kv.2 else acc) none).getD dflt

/-- Occurrence of `needle` as a contiguous run inside `hay`
(Python `needle in hay` on strings, over the character lists). -/
def containsSublist (needle : List Char) : List Char → Bool
  | [] => needle.isEmpty
  | c :: rest => needle.isPrefixOf (c :: rest) || containsSublist needle rest

/-- Python `sub in s` for strings. -/
def strContains (s sub : String) : Bool := containsSublist sub.data s.data

/-- Python `s.endswith(suffix)`. -/
def strEndsWith (s suffix : String) : Bool := suffix.data.reverse.isPrefixOf s.data.reverse

/-- Python `path.lstrip("/")`: remove every leading slash. -/
def lstripSlashes (s : String) : String := ⟨s.data.dropWhile (fun c => c == '/')⟩

/-- Python `sep.join(parts)`. -/
def pyJoin (sep : String) : List String → String
  | [] => ""
  | [s] => s
  | s :: rest => s ++ sep ++ pyJoin sep rest

/-- One entry of `SECURITY_PATTERNS` (lines 40-430): a rule name, an
optional path predicate (`path_check`), an optional list of literal
trigger substrings (`substrings`), and the remediation text shown when
the rule fires.  In the source a rule is a dict, so each of the two match
conditions may independently be absent. -/
structure SecurityPattern where
  ruleName : String
  path_check : Option (String → Bool)
  substrings : Option (List String)
  reminder : String

/-- The fixed rule table `SECURITY_PATTERNS` (lines 40-430), in source
order.  Strings are transcribed verbatim from the source; braces,
apostrophes and backticks inside them are written with `\xNN` escapes. -/
def SECURITY_PATTERNS : List SecurityPattern := [
  { ruleName := "github_actions_workflow",
    path_check := some (fun path => strContains path ".github/workflows/" && (strEndsWith path ".yml" || strEndsWith path ".yaml")),
    substrings := none,
    reminder := "You are editing a GitHub Actions workflow file. Be aware of these security risks:\n\n1. **Command Injection**: Never use untrusted input (like issue titles, PR descriptions, commit messages) directly in run: commands without proper escaping\n2. **Use environment variables**: Instead of $\x7b\x7b github.event.issue.title \x7d\x7d, use env: with proper quoting\n3. **Review the guide**: https://github.blog/security/vulnerability-research/how-to-catch-github-actions-workflow-injections-before-attackers-do/\n\nExample of UNSAFE pattern to avoid:\nrun: echo \"$\x7b\x7b github.event.issue.title \x7d\x7d\"\n\nExample of SAFE pattern:\nenv:\n  TITLE: $\x7b\x7b github.event.issue.title \x7d\x7d\nrun: echo \"$TITLE\"\n\nOther risky inputs to be careful with:\n- github.event.issue.body\n- github.event.pull_request.title\n- github.event.pull_request.body\n- github.event.comment.body\n- github.event.review.body\n- github.event.review_comment.body\n- github.event.pages.*.page_name\n- github.event.commits.*.message\n- github.event.head_commit.message\n- github.event.head_commit.author.email\n- github.event.head_commit.author.name\n- github.event.commits.*.author.email\n- github.event.commits.*.author.name\n- github.event.pull_request.head.ref\n- github.event.pull_request.head.label\n- github.event.pull_request.head.repo.default_branch\n- github.head_ref" },
  { ruleName := "child_process_exec",
    path_check := none,
    substrings := some ["child_process.exec", "exec(", "execSync("],
    reminder := "⚠️ Security Warning: Using child_process.exec() can lead to command injection vulnerabilities.\n\nThis codebase provides a safer alternative: src/utils/execFileNoThrow.ts\n\nInstead of:\n  exec(\x60command $\x7buserInput\x7d\x60)\n\nUse:\n  import \x7b execFileNoThrow \x7d from \x27../utils/execFileNoThrow.js\x27\n  await execFileNoThrow(\x27command\x27, [userInput])\n\nThe execFileNoThrow utility:\n- Uses execFile instead of exec (prevents shell injection)\n- Handles Windows compatibility automatically\n- Provides proper error handling\n- Returns structured output with stdout, stderr, and status\n\nOnly use exec() if you absolutely need shell features and the input is guaranteed to be safe." },
  { ruleName := "new_function_injection",
    path_check := none,
    substrings := some ["new Function"],
    reminder := "⚠️ Security Warning: Using new Function() with dynamic strings can lead to code injection vulnerabilities. Consider alternative approaches that don\x27t evaluate arbitrary code. Only use new Function() if you truly need to evaluate arbitrary dynamic code." },
  { ruleName := "eval_injection",
    path_check := none,
    substrings := some ["eval("],
    reminder := "⚠️ Security Warning: eval() executes arbitrary code and is a major security risk. Consider using JSON.parse() for data parsing or alternative design patterns that don\x27t require code evaluation. Only use eval() if you truly need to evaluate arbitrary code." },
  { ruleName := "react_dangerously_set_html",
    path_check := none,
    substrings := some ["dangerouslySetInnerHTML"],
    reminder := "⚠️ Security Warning: dangerouslySetInnerHTML can lead to XSS vulnerabilities if used with untrusted content. Ensure all content is properly sanitized using an HTML sanitizer library like DOMPurify, or use safe alternatives." },
  { ruleName := "document_write_xss",
    path_check := none,
    substrings := some ["document.write"],
    reminder := "⚠️ Security Warning: document.write() can be exploited for XSS attacks and has performance issues. Use DOM manipulation methods like createElement() and appendChild() instead." },
  { ruleName := "innerHTML_xss",
    path_check := none,
    substrings := some [".innerHTML =", ".innerHTML="],
    reminder := "⚠️ Security Warning: Setting innerHTML with untrusted content can lead to XSS vulnerabilities. Use textContent for plain text or safe DOM methods for HTML content. If you need HTML support, consider using an HTML sanitizer library such as DOMPurify." },
  { ruleName := "pickle_deserialization",
    path_check := none,
    substrings := some ["pickle"],
    reminder := "⚠️ Security Warning: Using pickle with untrusted content can lead to arbitrary code execution. Consider using JSON or other safe serialization formats instead. Only use pickle if it is explicitly needed or requested by the user." },
  { ruleName := "os_system_injection",
    path_check := none,
    substrings := some ["os.system", "from os import system"],
    reminder := "⚠️ Security Warning: This code appears to use os.system. This should only be used with static arguments and never with arguments that could be user-controlled." },
  { ruleName := "unsafe_href",
    path_check := none,
    substrings := some ["href=\x7b", "href=\"\x7b"],
    reminder := "⚠️ Security Warning: Dynamic href values can create XSS vulnerabilities.\n\nDangerous patterns:\n- href=\x7buserInput\x7d\n- href=\x7b\x60javascript:$\x7bcode\x7d\x60\x7d\n- href=\x7b\x27javascript:\x27 + userCode\x7d\n\nSafe patterns:\n1. Validate URLs against whitelist:\n   \x60\x60\x60typescript\n   const isValidUrl = (url: string) => \x7b\n     try \x7b\n       const parsed = new URL(url);\n       return [\x27http:\x27, \x27https:\x27, \x27mailto:\x27, \x27tel:\x27].includes(parsed.protocol);\n     \x7d catch \x7b\n       return false;\n     \x7d\n   \x7d;\n\n   if (!isValidUrl(userUrl)) \x7b\n     throw new Error(\x27Invalid URL\x27);\n   \x7d\n   \x60\x60\x60\n\n2. Use rel=\"noopener noreferrer\" for external links:\n   \x60\x60\x60typescript\n   <a href=\x7bexternalUrl\x7d target=\"_blank\" rel=\"noopener noreferrer\">\n   \x60\x60\x60\n\n3. Sanitize user input before using in href attributes." },
  { ruleName := "unsafe_target_blank",
    path_check := none,
    substrings := some ["target=\"_blank\"", "target=\x27_blank\x27"],
    reminder := "⚠️ Security Best Practice: Always use rel=\"noopener noreferrer\" with target=\"_blank\".\n\nWhy this matters:\n1. **Tabnapping Prevention**: Without rel=\"noopener\", the new page can access window.opener\n2. **Performance**: The new page runs in the same process, impacting performance\n3. **Privacy**: Prevents referer leakage in some cases\n\nSafe pattern:\n\x60\x60\x60typescript\n<a href=\x7burl\x7d target=\"_blank\" rel=\"noopener noreferrer\">\n  Link text\n</a>\n\x60\x60\x60\n\nAdditional considerations:\n- For same-origin links, rel=\"opener\" is safe\n- For external links, ALWAYS use rel=\"noopener noreferrer\"\n- Consider using noreferrer for additional privacy" },
  { ruleName := "localstorage_sensitive_data",
    path_check := none,
    substrings := some ["localStorage.setItem", "sessionStorage.setItem"],
    reminder := "⚠️ Security Warning: Don\x27t store sensitive data in localStorage/sessionStorage.\n\nWhy it\x27s dangerous:\n1. Accessible to all JavaScript (including third-party scripts)\n2. Vulnerable to XSS attacks\n3. Persists across sessions (localStorage)\n4. No built-in encryption\n5. Can be accessed by browser extensions\n\nNever store:\n- ❌ Authentication tokens (use httpOnly cookies instead)\n- ❌ API keys or secrets\n- ❌ Passwords or password hashes\n- ❌ Personal identifiable information (PII)\n- ❌ Credit card information\n- ❌ Social security numbers\n\nSafe to store:\n- ✅ User preferences (theme, language)\n- ✅ UI state (sidebar collapsed, tab selection)\n- ✅ Non-sensitive cache data\n- ✅ Analytics IDs (public data)\n\nFor authentication tokens:\n\x60\x60\x60typescript\n// ❌ Bad: Store in localStorage\nlocalStorage.setItem(\x27authToken\x27, token);\n\n// ✅ Good: Use httpOnly cookies set by backend\n// Server sets: Set-Cookie: authToken=xxx; HttpOnly; Secure; SameSite=Strict\n\x60\x60\x60" },
  { ruleName := "react_refs_dom_manipulation",
    path_check := none,
    substrings := some [".innerHTML =", ".outerHTML =", "ref.current"],
    reminder := "⚠️ Security Warning: Direct DOM manipulation via refs can introduce XSS vulnerabilities.\n\nDangerous pattern:\n\x60\x60\x60typescript\nconst ref = useRef<HTMLDivElement>(null);\nref.current.innerHTML = userContent; // XSS risk!\n\x60\x60\x60\n\nSafe alternatives:\n1. Use textContent for plain text:\n   \x60\x60\x60typescript\n   ref.current.textContent = userContent; // Safe\n   \x60\x60\x60\n\n2. Use React\x27s rendering (preferred):\n   \x60\x60\x60typescript\n   function Component(\x7b content \x7d: \x7b content: string \x7d) \x7b\n     return <div>\x7bcontent\x7d</div>; // React auto-escapes\n   \x7d\n   \x60\x60\x60\n\n3. If you need HTML, sanitize first:\n   \x60\x60\x60typescript\n   import DOMPurify from \x27dompurify\x27;\n\n   const sanitized = DOMPurify.sanitize(userHTML);\n   ref.current.innerHTML = sanitized;\n   \x60\x60\x60\n\nBest practice: Avoid direct DOM manipulation in React. Let React manage the DOM." },
  { ruleName := "postmessage_origin",
    path_check := none,
    substrings := some ["postMessage(", "addEventListener(\x27message\x27", "addEventListener(\"message\""],
    reminder := "⚠️ Security Warning: Always validate origin when using postMessage API.\n\nUnsafe patterns:\n\x60\x60\x60typescript\n// ❌ Bad: Accept messages from any origin\nwindow.postMessage(data, \x27*\x27);\n\nwindow.addEventListener(\x27message\x27, (event) => \x7b\n  processData(event.data); // No origin check!\n\x7d);\n\x60\x60\x60\n\nSafe patterns:\n\x60\x60\x60typescript\n// ✅ Good: Specify exact origin\nwindow.postMessage(data, \x27https://trusted-origin.com\x27);\n\n// ✅ Good: Validate sender origin\nwindow.addEventListener(\x27message\x27, (event) => \x7b\n  // Whitelist of trusted origins\n  const trustedOrigins = [\x27https://app.example.com\x27, \x27https://api.example.com\x27];\n\n  if (!trustedOrigins.includes(event.origin)) \x7b\n    console.warn(\x27Untrusted origin:\x27, event.origin);\n    return; // Ignore message\n  \x7d\n\n  // Validate data structure\n  if (typeof event.data !== \x27object\x27 || !event.data.type) \x7b\n    return;\n  \x7d\n\n  processData(event.data);\n\x7d);\n\x60\x60\x60\n\nAdditional security:\n- Validate data structure before processing\n- Never execute code from postMessage data\n- Use structured cloning for data transfer\n- Consider using a message protocol/schema" },
  { ruleName := "react_key_index",
    path_check := none,
    substrings := some ["key=\x7bi\x7d", "key=\x7bindex\x7d", "key=\x7bidx\x7d"],
    reminder := "⚠️ Best Practice Warning: Using array index as React key can cause issues.\n\nProblems with index keys:\n1. **State bugs**: Component state persists incorrectly when list reorders\n2. **Performance**: React can\x27t optimize reconciliation\n3. **Incorrect updates**: Wrong components receive wrong props\n4. **Animation issues**: Transitions apply to wrong elements\n\nExample of the problem:\n\x60\x60\x60typescript\n// ❌ Bad: Using index\n\x7bitems.map((item, index) => (\n  <TodoItem key=\x7bindex\x7d \x7b...item\x7d />\n))\x7d\n\n// If items reorder, React thinks item at index 0 is the same component\n// but with different props, causing state and animation issues\n\x60\x60\x60\n\nCorrect approach:\n\x60\x60\x60typescript\n// ✅ Good: Using stable, unique identifier\n\x7bitems.map((item) => (\n  <TodoItem key=\x7bitem.id\x7d \x7b...item\x7d />\n))\x7d\n\x60\x60\x60\n\nWhen index is acceptable:\n- ✅ List never reorders\n- ✅ List is static (no add/remove)\n- ✅ Items have no internal state\n- ✅ No animations or transitions\n\nBest practice: Always use stable, unique identifiers as keys." },
  { ruleName := "cors_credentials",
    path_check := none,
    substrings := some ["credentials: \x27include\x27", "withCredentials: true"],
    reminder := "⚠️ Security Warning: Using credentials with CORS requires careful configuration.\n\nWhen you use credentials: \x27include\x27 or withCredentials: true:\n\nSecurity requirements:\n1. ❌ Server CANNOT use Access-Control-Allow-Origin: *\n2. ✅ Server MUST specify exact origin\n3. ✅ Use HTTPS in production (not HTTP)\n4. ✅ Implement CSRF protection\n5. ✅ Validate requests on server side\n\nExample:\n\x60\x60\x60typescript\n// Frontend\nfetch(\x27/api/data\x27, \x7b\n  credentials: \x27include\x27, // Sends cookies\n  headers: \x7b\n    \x27X-CSRF-Token\x27: getCsrfToken(), // CSRF protection required!\n  \x7d\n\x7d);\n\n// Backend must respond with:\n// Access-Control-Allow-Origin: https://your-exact-domain.com (NOT *)\n// Access-Control-Allow-Credentials: true\n// Vary: Origin\n\x60\x60\x60\n\nCommon vulnerabilities:\n- ❌ Using wildcard origin with credentials (blocked by browsers)\n- ❌ Missing CSRF protection\n- ❌ Accepting any origin dynamically without validation\n- ❌ Using HTTP instead of HTTPS\n\nCSRF protection strategies:\n1. Double-submit cookie pattern\n2. Synchronizer token pattern\n3. SameSite cookie attribute (Strict or Lax)\n4. Custom request headers\n\nSafe alternative:\nIf you don\x27t need cookies, use Authorization header:\n\x60\x60\x60typescript\nfetch(\x27/api/data\x27, \x7b\n  headers: \x7b\n    \x27Authorization\x27: \x60Bearer $\x7btoken\x7d\x60,\n  \x7d\n\x7d);\n\x60\x60\x60" },
  { ruleName := "window_name_xss",
    path_check := none,
    substrings := some ["window.name", "window[\x27name\x27]"],
    reminder := "⚠️ Security Warning: window.name can be a source of XSS vulnerabilities.\n\nWhy it\x27s dangerous:\n- window.name persists across page navigations\n- Can be set by any page (even cross-origin)\n- Often overlooked as untrusted input\n\nUnsafe pattern:\n\x60\x60\x60typescript\n// ❌ Bad: Direct use of window.name\ndocument.getElementById(\x27display\x27).innerHTML = window.name;\neval(window.name); // Very dangerous!\n\x60\x60\x60\n\nSafe pattern:\n\x60\x60\x60typescript\n// ✅ Good: Treat as untrusted input\nconst name = window.name;\nif (typeof name === \x27string\x27 && name.length < 100) \x7b\n  // Validate and sanitize\n  const sanitized = DOMPurify.sanitize(name);\n  element.textContent = sanitized; // Use textContent, not innerHTML\n\x7d\n\x60\x60\x60\n\nBest practices:\n1. Always validate window.name content\n2. Never execute code from window.name\n3. Never insert into DOM without sanitization\n4. Prefer other storage mechanisms (sessionStorage, state)" }
]

/-- The path condition of a rule, on the normalized path: the value of
`pattern["path_check"](normalized_path)` when the key is present, and
false otherwise (line 494). -/
def pathHit (p : SecurityPattern) (path : String) : Bool :=
  match p.path_check with
  | some pc => pc path
  | none => false

/-- Python `sub in content` for an arbitrary JSON content value, as it
behaves inside `check_patterns` (line 500): substring search on a string,
element membership on a list, key membership on a dict, and an uncaught
`TypeError` on a (truthy) number or boolean. -/
def pyIn (sub : String) : Json → Except Unit Bool
  | .str c => .ok (strContains c sub)
  | .arr xs => .ok (xs.contains (Json.str sub))
  | .obj fields => .ok ((fields.map Prod.fst).contains sub)
  | _ => .error ()

/-- The inner loop of `check_patterns` (lines 499-501): test the trigger
substrings in order; Python raises on the first membership test when the
content type does not support `in`. -/
def anyTrigger (subs : List String) (content : Json) : Except Unit Bool :=
  match subs with
  | [] => .ok false
  | sub :: rest =>
    match pyIn sub content with
    | .error e => .error e
    | .ok true => .ok true
    | .ok false => anyTrigger rest content

/-- The rule scan of `check_patterns` (lines 492-503): walk the rules in
order; inside each rule test the path condition first, then (when the
content value is truthy) the trigger substrings; return the first
matching rule name and reminder, or none. -/
def ruleFirstMatch : List SecurityPattern → String → Json → Except Unit (Option (String × String))
  | [], _, _ => .ok none
  | p :: rest, path, content =>
    if pathHit p path then .ok (some (p.ruleName, p.reminder))
    else
      match p.substrings with
      | some subs =>
        if pyFalsy content then ruleFirstMatch rest path content
        else
          match anyTrigger subs content with
          | .error e => .error e
          | .ok true => .ok (some (p.ruleName, p.reminder))
          | .ok false => ruleFirstMatch rest path content
      | none => ruleFirstMatch rest path content

/-- `check_patterns` (lines 487-503): normalize the path by stripping
leading slashes, then scan `SECURITY_PATTERNS`.  A non-string path raises
an uncaught `AttributeError` at `file_path.lstrip` (modelled as error);
the source returns `(None, None)` for no match, modelled as `.ok none`. -/
def check_patterns (file_path content : Json) : Except Unit (Option (String × String)) :=
  match file_path with
  | .str p => ruleFirstMatch SECURITY_PATTERNS (lstripSlashes p) content
  | _ => .error ()

/-- One element of the `edits` array in a MultiEdit input: Python evaluates
`edit.get("new_string", "")` (`AttributeError` on a non-dict element) and
`" ".join` then requires the value to be a string (`TypeError` otherwise),
both uncaught. -/
def editNewString : Json → Except Unit String
  | .obj f =>
    match dictGetD f "new_string" (.str "") with
    | .str s => .ok s
    | _ => .error ()
  | _ => .error ()

/-- `extract_content_from_input` (lines 506-518): pick the new-content
value out of `tool_input` depending on the tool.  For MultiEdit, a falsy
`edits` value yields the empty string, a truthy list is joined with
spaces, and a truthy non-list raises when iterated. -/
def extract_content_from_input (tool_name : Json) (tool_input : List (String × Json)) :
    Except Unit Json :=
  if tool_name == Json.str "Write" then .ok (dictGetD tool_input "content" (.str ""))
  else if tool_name == Json.str "Edit" then .ok (dictGetD tool_input "new_string" (.str ""))
  else if tool_name == Json.str "MultiEdit" then
    let edits := dictGetD tool_input "edits" (.arr [])
    if pyFalsy edits then .ok (.str "")
    else
      match edits with
      | .arr es =>
        match es.mapM editNewString with
        | .error e => .error e
        | .ok parts => .ok (.str (pyJoin " " parts))
      | _ => .error ()
  else .ok (.str "")

/-- One persisted per-session state file: the parsed JSON payload (a list
of warning keys; `none` models a file that is unreadable or not valid
JSON) and its modification time. -/
structure StateFile where
  content : Option (List String)
  mtime : Int

/-- The per-session state files under `~/.claude`, keyed by the session id
that determines the file name `security_warnings_state_{session_id}.json`.
Every tracked file carries the prefix and `.json` suffix that
`cleanup_old_state_files` scans for. -/
structure FS where
  files : List (Json × StateFile)

/-- First file stored under the given session id. -/
def lookupF : List (Json × StateFile) → Json → Option StateFile
  | [], _ => none
  | (k, v) :: rest, sid => if k == sid then some v else lookupF rest sid

/-- Store a file under the given session id, replacing an existing one. -/
def setFile : List (Json × StateFile) → Json → StateFile → List (Json × StateFile)
  | [], sid, sf => [(sid, sf)]
  | (k, v) :: rest, sid, sf =>
    if k == sid then (k, sf) :: rest else (k, v) :: setFile rest sid sf

/-- `load_state` (lines 463-472): the set of warning keys already shown in
the session; an absent, unreadable or corrupt file yields the empty set. -/
def load_state (fs : FS) (session_id : Json) : List String :=
  match lookupF fs.files session_id with
  | some sf => sf.content.getD []
  | none => []

/-- `save_state` (lines 475-484): write the warning keys to the session
file (its mtime becomes the current time).  An `IOError` is caught and
ignored; the parameter `ok` is false exactly when such a failure occurs,
leaving the filesystem unchanged. -/
def save_state (ok : Bool) (now : Int) (fs : FS) (session_id : Json)
    (shown_warnings : List String) : FS :=
  if ok then ⟨setFile fs.files session_id ⟨some shown_warnings, now⟩⟩ else fs

/-- Thirty days in seconds (`30 * 24 * 60 * 60`, line 446). -/
def THIRTY_DAYS : Int := 30 * 24 * 60 * 60

/-- `cleanup_old_state_files` (lines 438-460): remove every state file
whose modification time is strictly older than thirty days before now. -/
def cleanup_old_state_files (now : Int) (fs : FS) : FS :=
  ⟨fs.files.filter (fun f => !(decide (f.2.mtime < now - THIRTY_DAYS)))⟩

/-- How one invocation of the hook process ends: `sys.exit(code)` with the
text printed to stderr (the remediation, when blocking), or an uncaught
Python exception aborting the interpreter (`crash`). -/
inductive Outcome where
  | exit (code : Nat) (stderrText : Option String)
  | crash
deriving DecidableEq

namespace Hook

/-- `main` (lines 521-584).  Parameters: the value of the
`ENABLE_SECURITY_REMINDER` environment variable, the outcome of the
`random.random() < 0.1` draw, the current time, the parsed standard input
(`none` when not parseable as JSON), the state-file directory, and
whether writing the state file succeeds.  Returns the process outcome and
the resulting filesystem. -/
def main (env : Option String) (doCleanup : Bool) (now : Int)
    (stdin : Option Json) (fs : FS) (saveOk : Bool) : Outcome × FS :=
  let security_reminder_enabled := env.getD "1"
  if security_reminder_enabled == "0" then (.exit 0 none, fs)
  else
    let fs1 := if doCleanup then cleanup_old_state_files now fs else fs
    match stdin with
    | none => (.exit 0 none, fs1)
    | some input_data =>
      match input_data with
      | .obj fields =>
        let session_id := dictGetD fields "session_id" (.str "default")
        let tool_name := dictGetD fields "tool_name" (.str "")
        let tool_input := dictGetD fields "tool_input" (.obj [])
        if !(tool_name == Json.str "Edit" || tool_name == Json.str "Write"
            || tool_name == Json.str "MultiEdit") then
          (.exit 0 none, fs1)
        else
          match tool_input with
          | .obj tin =>
            let file_path := dictGetD tin "file_path" (.str "")
            if pyFalsy file_path then (.exit 0 none, fs1)
            else
              match extract_content_from_input tool_name tin with
              | .error _ => (.crash, fs1)
              | .ok content =>
                match file_path with
                | .str p =>
                  match check_patterns (.str p) content with
                  | .error _ => (.crash, fs1)
                  | .ok none => (.exit 0 none, fs1)
                  | .ok (some (rule_name, reminder)) =>
                    if rule_name.data.isEmpty || reminder.data.isEmpty then
                      (.exit 0 none, fs1)
                    else
                      let warning_key := p ++ "-" ++ rule_name
                      let shown_warnings := load_state fs1 session_id
                      if !(shown_warnings.contains warning_key) then
                        (.exit 2 (some reminder),
                         save_state saveOk now fs1 session_id (warning_key :: shown_warnings))
                      else (.exit 0 none, fs1)
                | _ => (.crash, fs1)
          | _ => (.crash, fs1)
      | _ => (.crash, fs1)

end Hook

/-- Rule match condition in the words of the specification (section 4.1):
a path-based rule matches when its path predicate holds; a content-based
rule matches when some configured literal substring occurs in the
(non-empty) content. -/
def ruleMatches (path content : String) (p : SecurityPattern) : Bool :=
  pathHit p path
    || (p.substrings.isSome && !content.data.isEmpty
        && (p.substrings.getD []).any (fun sub => strContains content sub))

/-- The matcher in the words of the specification (section 4.1): the first
rule of the fixed table that matches, no severity ranking. -/
def matcherSpec (file_path content : String) : Option (String × String) :=
  (SECURITY_PATTERNS.find? (ruleMatches (lstripSlashes file_path) content)).map
    (fun p => (p.ruleName, p.reminder))

/-- The tail of `main` (lines 563-584) once the run has passed the
enable/cleanup/parse/tool/file-path gates: the result of the run as a
function of the filesystem after the optional cleanup, the session id,
the raw file path and the outcome of the pattern scan. -/
def mainEditResult (dcfs : FS) (ok : Bool) (now : Int) (sid : Json) (fp : String)
    (scan : Except Unit (Option (String × String))) : Outcome × FS :=
  match scan with
  | .error _ => (.crash, dcfs)
  | .ok none => (.exit 0 none, dcfs)
  | .ok (some (rn, rem)) =>
    if rn.data.isEmpty || rem.data.isEmpty then (.exit 0 none, dcfs)
    else if (load_state dcfs sid).contains (fp ++ "-" ++ rn) then (.exit 0 none, dcfs)
    else
      (.exit 2 (some rem),
       save_state ok now dcfs sid ((fp ++ "-" ++ rn) :: load_state dcfs sid))

set_option maxRecDepth 8000

mutual

theorem Json.beq_self : ∀ j : Json, Json.beq j j = true
  | .null => rfl
  | .bool b => by simp [Json.beq]
  | .num n => by simp [Json.beq]
  | .str s => by simp [Json.beq]
  | .arr xs => by simp [Json.beq, Json.beqArr_self xs]
  | .obj f => by simp [Json.beq, Json.beqObj_self f]

theorem Json.beqArr_self : ∀ l : List Json, Json.beqArr l l = true
  | [] => rfl
  | x :: xs => by simp [Json.beqArr, Json.beq_self x, Json.beqArr_self xs]

theorem Json.beqObj_self : ∀ l : List (String × Json), Json.beqObj l l = true
  | [] => rfl
  | (k, v) :: xs => by simp [Json.beqObj, Json.beq_self v, Json.beqObj_self xs]

end

/-- A nonempty string has a nonempty character list. -/
theorem data_isEmpty_false_of_ne (s : String) (h : s ≠ "") : s.data.isEmpty = false := by
  cases s with
  | mk l =>
    cases l with
    | nil => exact absurd rfl h
    | cons c cs => rfl

/-- A string containing a nonempty substring is nonempty. -/
theorem ne_empty_of_strContains (s sub : String) (hsub : sub ≠ "")
    (h : strContains s sub = true) : s.data.isEmpty = false := by
  cases s with
  | mk l =>
    cases l with
    | nil =>
      exfalso
      apply hsub
      have hd : sub.data = [] := by
        simpa [strContains, containsSublist, List.isEmpty_iff] using h
      cases sub with
      | mk ls => cases hd; rfl
    | cons c cs => rfl

/-- Looking up a session id right after storing a file under it finds
that file. -/
theorem lookupF_setFile (l : List (Json × StateFile)) (sid : Json) (sf : StateFile) :
    lookupF (setFile l sid sf) sid = some sf := by
  induction l with
  | nil => simp [setFile, lookupF, show (sid == sid) = true from Json.beq_self sid]
  | cons kv rest ih =>
    obtain ⟨k, v⟩ := kv
    by_cases hk : (k == sid) = true
    · simp [setFile, lookupF, hk]
    · simp only [Bool.not_eq_true] at hk
      simp [setFile, lookupF, hk, ih]

/-- Storing a file and then filtering by a predicate on the file payloads
that keeps the stored file still finds it. -/
theorem lookupF_filter_setFile (l : List (Json × StateFile)) (sid : Json) (sf : StateFile)
    (pr : StateFile → Bool) (hp : pr sf = true) :
    lookupF ((setFile l sid sf).filter (fun x => pr x.2)) sid = some sf := by
  induction l with
  | nil =>
    simp [setFile, List.filter, hp, lookupF,
      show (sid == sid) = true from Json.beq_self sid]
  | cons kv rest ih =>
    obtain ⟨k, v⟩ := kv
    by_cases hk : (k == sid) = true
    · simp [setFile, hk, List.filter, hp, lookupF]
    · simp only [Bool.not_eq_true] at hk
      simp only [setFile, hk, Bool.false_eq_true, if_false, List.filter]
      cases hpv : pr v with
      | false => simpa using ih
      | true => simp [lookupF, hk]; simpa using ih

/-- Every entry of a stored-into file list is the stored payload or an
entry of the original list. -/
theorem mem_setFile (l : List (Json × StateFile)) (sid : Json) (sf : StateFile) :
    ∀ e ∈ setFile l sid sf, e.2 = sf ∨ e ∈ l := by
  induction l with
  | nil => intro e he; simp [setFile] at he; simp [he]
  | cons kv rest ih =>
    obtain ⟨k, v⟩ := kv
    intro e he
    by_cases hk : (k == sid) = true
    · simp only [setFile, hk, if_true] at he
      rcases List.mem_cons.mp he with h | h
      · left; simp [h]
      · right; exact List.mem_cons_of_mem _ h
    · simp only [Bool.not_eq_true] at hk
      simp only [setFile, hk, Bool.false_eq_true, if_false] at he
      rcases List.mem_cons.mp he with h | h
      · right; simp [h]
      · rcases ih e h with h' | h'
        · left; exact h'
        · right; exact List.mem_cons_of_mem _ h'

/-- The trigger loop on a string content computes the disjunction of the
individual substring tests. -/
theorem anyTrigger_str (subs : List String) (c : String) :
    anyTrigger subs (.str c) = .ok (subs.any (fun sub => strContains c sub)) := by
  induction subs with
  | nil => rfl
  | cons sub rest ih =>
    simp only [anyTrigger, pyIn]
    cases h : strContains c sub with
    | false => simpa [h] using ih
    | true => simp [h]

/-- On a string content the rule scan is exactly the first-match-wins
matcher of the specification: it returns the name and reminder of the
first rule whose condition holds, and none when no rule matches. -/
theorem ruleFirstMatch_eq_find (rules : List SecurityPattern) (path c : String) :
    ruleFirstMatch rules path (.str c) =
      .ok ((rules.find? (ruleMatches path c)).map (fun p => (p.ruleName, p.reminder))) := by
  induction rules with
  | nil => rfl
  | cons p rest ih =>
    simp only [ruleFirstMatch]
    cases hpc : pathHit p path with
    | true =>
      have hm : ruleMatches path c p = true := by simp [ruleMatches, hpc]
      have hfind : List.find? (ruleMatches path c) (p :: rest) = some p :=
        List.find?_cons_of_pos rest hm
      simp [hfind]
    | false =>
      cases hsub : p.substrings with
      | none =>
        have hm : ruleMatches path c p = false := by simp [ruleMatches, hpc, hsub]
        have hfind : List.find? (ruleMatches path c) (p :: rest) =
            List.find? (ruleMatches path c) rest :=
          List.find?_cons_of_neg rest (by simp [hm])
        simp [hfind, ih]
      | some subs =>
        cases hemp : c.data.isEmpty with
        | true =>
          have hm : ruleMatches path c p = false := by simp [ruleMatches, hpc, hemp]
          have hfind : List.find? (ruleMatches path c) (p :: rest) =
              List.find? (ruleMatches path c) rest :=
            List.find?_cons_of_neg rest (by simp [hm])
          simp only [pyFalsy, hemp, if_true]
          simp [hfind, ih]
        | false =>
          simp only [pyFalsy, hemp, Bool.false_eq_true, if_false, anyTrigger_str]
          cases hany : subs.any (fun sub => strContains c sub) with
          | true =>
            have hm : ruleMatches path c p = true := by
              simp [ruleMatches, hpc, hsub, hemp, hany]
            have hfind : List.find? (ruleMatches path c) (p :: rest) = some p :=
              List.find?_cons_of_pos rest hm
            simp [hfind]
          | false =>
            have hm : ruleMatches path c p = false := by
              simp [ruleMatches, hpc, hsub, hemp, hany]
            have hfind : List.find? (ruleMatches path c) (p :: rest) =
                List.find? (ruleMatches path c) rest :=
              List.find?_cons_of_neg rest (by simp [hm])
            simp [hfind, ih]

/-- A successful rule scan returns the name and reminder of a table
entry. -/
theorem ruleFirstMatch_mem (rules : List SecurityPattern) (path : String) (c : Json)
    (rn rem : String) (h : ruleFirstMatch rules path c = .ok (some (rn, rem))) :
    ∃ p ∈ rules, p.ruleName = rn ∧ p.reminder = rem := by
  induction rules with
  | nil => simp [ruleFirstMatch] at h
  | cons p rest ih =>
    simp only [ruleFirstMatch] at h
    cases hpc : pathHit p path with
    | true =>
      simp only [hpc, if_true] at h
      have h2 : (p.ruleName, p.reminder) = (rn, rem) := Option.some.inj (Except.ok.inj h)
      exact ⟨p, by simp, congrArg Prod.fst h2, congrArg Prod.snd h2⟩
    | false =>
      simp only [hpc, Bool.false_eq_true, if_false] at h
      cases hsub : p.substrings with
      | none =>
        simp only [hsub] at h
        rcases ih h with ⟨q, hq, h1, h2⟩
        exact ⟨q, List.mem_cons_of_mem _ hq, h1, h2⟩
      | some subs =>
        simp only [hsub] at h
        cases hfal : pyFalsy c with
        | true =>
          simp only [hfal, if_true] at h
          rcases ih h with ⟨q, hq, h1, h2⟩
          exact ⟨q, List.mem_cons_of_mem _ hq, h1, h2⟩
        | false =>
          simp only [hfal, Bool.false_eq_true, if_false] at h
          cases hany : anyTrigger subs c with
          | error e => simp [hany] at h
          | ok b =>
            cases b with
            | true =>
              simp only [hany] at h
              have h2 : (p.ruleName, p.reminder) = (rn, rem) :=
                Option.some.inj (Except.ok.inj h)
              exact ⟨p, by simp, congrArg Prod.fst h2, congrArg Prod.snd h2⟩
            | false =>
              simp only [hany] at h
              rcases ih h with ⟨q, hq, h1, h2⟩
              exact ⟨q, List.mem_cons_of_mem _ hq, h1, h2⟩

/-- Every rule of the table has a nonempty name and a nonempty reminder
(so the truthiness test on line 565 always passes for a match). -/
theorem patterns_nonempty :
    SECURITY_PATTERNS.all
      (fun p => !p.ruleName.data.isEmpty && !p.reminder.data.isEmpty) = true := by decide

/-- Membership form of `patterns_nonempty`. -/
theorem mem_patterns_nonempty (p : SecurityPattern) (hp : p ∈ SECURITY_PATTERNS) :
    p.ruleName.data.isEmpty = false ∧ p.reminder.data.isEmpty = false := by
  have h := patterns_nonempty
  rw [List.all_eq_true] at h
  have := h p hp
  constructor
  · cases hr : p.ruleName.data.isEmpty with
    | false => rfl
    | true => simp [hr] at this
  · cases hr : p.reminder.data.isEmpty with
    | false => rfl
    | true => simp [hr] at this

/-- Once the enable gate, the cleanup, the JSON-object shape, the editing
tool check and the nonempty file path are fixed, `main` is exactly
`mainEditResult` applied to the cleaned filesystem, the session id, the
raw file path and the pattern scan of the extracted content. -/
theorem main_edit_eq
    (env : Option String) (dc : Bool) (now : Int) (fs : FS) (ok : Bool)
    (fields tin : List (String × Json)) (tname fp : String) (c : Json)
    (henv : (env.getD "1" == "0") = false)
    (htool : dictGetD fields "tool_name" (.str "") = .str tname)
    (hmem : tname = "Edit" ∨ tname = "Write" ∨ tname = "MultiEdit")
    (htin : dictGetD fields "tool_input" (.obj []) = .obj tin)
    (hfp : dictGetD tin "file_path" (.str "") = .str fp)
    (hfpne : fp ≠ "")
    (hext : extract_content_from_input (.str tname) tin = .ok c) :
    Hook.main env dc now (some (.obj fields)) fs ok =
      mainEditResult (if dc then cleanup_old_state_files now fs else fs) ok now
        (dictGetD fields "session_id" (.str "default")) fp
        (check_patterns (.str fp) c) := by
  have hfpdata : fp.data.isEmpty = false := data_isEmpty_false_of_ne fp hfpne
  have hguard : (Json.str tname == Json.str "Edit" || Json.str tname == Json.str "Write"
      || Json.str tname == Json.str "MultiEdit") = true := by
    rcases hmem with rfl | rfl | rfl <;> decide
  simp only [Hook.main, henv, Bool.false_eq_true, if_false, htool, htin, hfp, hext,
    hguard, Bool.not_true, pyFalsy, hfpdata]
  cases hcp : check_patterns (.str fp) c with
  | error e => simp [mainEditResult, hcp]
  | ok o =>
    cases o with
    | none => simp [mainEditResult, hcp]
    | some pr =>
      obtain ⟨rn, rem⟩ := pr
      simp only [mainEditResult, hcp]
      by_cases hemp : (rn.data.isEmpty || rem.data.isEmpty) = true
      · simp [hemp]
      · simp only [Bool.not_eq_true] at hemp
        simp only [hemp, Bool.false_eq_true, if_false]
        cases hcon : (load_state (if dc then cleanup_old_state_files now fs else fs)
            (dictGetD fields "session_id" (.str "default"))).contains (fp ++ "-" ++ rn) with
        | true => simp [hcon]
        | false => simp [hcon]

/-- Every `sys.exit` the program performs uses code 0 or code 2. -/
theorem main_exit_code_cases (env : Option String) (dc : Bool) (now : Int)
    (stdin : Option Json) (fs : FS) (ok : Bool) (code : Nat) (msg : Option String)
    (h : (Hook.main env dc now stdin fs ok).1 = .exit code msg) : code = 0 ∨ code = 2 := by
  by_cases henv : (env.getD "1" == "0") = true
  · simp only [Hook.main, henv, if_true] at h
    simp only [Outcome.exit.injEq] at h
    omega
  · simp only [Bool.not_eq_true] at henv
    simp only [Hook.main, henv, Bool.false_eq_true, if_false] at h
    repeat' split at h
    all_goals simp_all

/-- The exit code and the stderr text of a run do not depend on whether
writing the state file succeeds. -/
theorem main_fst_saveOk (env : Option String) (dc : Bool) (now : Int)
    (stdin : Option Json) (fs : FS) (ok1 ok2 : Bool) :
    (Hook.main env dc now stdin fs ok1).1 = (Hook.main env dc now stdin fs ok2).1 := by
  by_cases henv : (env.getD "1" == "0") = true
  · simp [Hook.main, henv]
  · simp only [Bool.not_eq_true] at henv
    simp only [Hook.main, henv, Bool.false_eq_true, if_false]
    repeat' split
    all_goals rfl

/-- With the check enabled and the cleanup draw fired, the resulting
filesystem is the cleaned one, possibly with one session file written on
top of it. -/
theorem main_snd_cases (env : Option String) (now : Int) (stdin : Option Json)
    (fs : FS) (ok : Bool) (henv : (env.getD "1" == "0") = false) :
    (Hook.main env true now stdin fs ok).2 = cleanup_old_state_files now fs
    ∨ ∃ sid w, (Hook.main env true now stdin fs ok).2 =
        save_state ok now (cleanup_old_state_files now fs) sid w := by
  simp only [Hook.main, henv, Bool.false_eq_true, if_false, if_true]
  repeat' split
  all_goals first
    | exact Or.inl rfl
    | exact Or.inr ⟨_, _, rfl⟩

/-- Cleanup leaves no file whose mtime is more than thirty days old. -/
theorem cleanup_no_stale (now : Int) (fs : FS) :
    ∀ e ∈ (cleanup_old_state_files now fs).files, ¬(e.2.mtime < now - THIRTY_DAYS) := by
  intro e he
  simp only [cleanup_old_state_files, List.mem_filter] at he
  simpa using he.2

/-- Writing a session file at the current time preserves the absence of
stale files. -/
theorem save_state_no_stale (ok : Bool) (now : Int) (fs : FS) (sid : Json) (w : List String)
    (h : ∀ e ∈ fs.files, ¬(e.2.mtime < now - THIRTY_DAYS)) :
    ∀ e ∈ (save_state ok now fs sid w).files, ¬(e.2.mtime < now - THIRTY_DAYS) := by
  intro e he
  unfold save_state at he
  cases ok with
  | false => exact h e he
  | true =>
    simp only [if_true] at he
    rcases mem_setFile fs.files sid ⟨some w, now⟩ e he with h1 | h1
    · rw [h1]
      simp only [THIRTY_DAYS]
      omega
    · exact h e h1

/-- C1: For every invocation whose standard input is a valid JSON object
describing an Edit, Write, or MultiEdit action with a non-empty
file_path (and with the check enabled), if the file path or the extracted
new-content string matches a security rule (first match of the scan) and
the composite key (file path + rule name) is not already in the
session's dedup state, then the program writes that rule's remediation
text to standard error and exits with code 2 (block); in every other
case (no rule matches, or the key is already recorded) it exits with
code 0 (allow). -/
theorem C1_edit_block_or_allow
    (env : Option String) (dc : Bool) (now : Int) (fs : FS) (ok : Bool)
    (fields tin : List (String × Json)) (tname fp cs rn rem : String)
    (henv : (env.getD "1" == "0") = false)
    (htool : dictGetD fields "tool_name" (.str "") = .str tname)
    (hmem : tname = "Edit" ∨ tname = "Write" ∨ tname = "MultiEdit")
    (htin : dictGetD fields "tool_input" (.obj []) = .obj tin)
    (hfp : dictGetD tin "file_path" (.str "") = .str fp)
    (hfpne : fp ≠ "")
    (hext : extract_content_from_input (.str tname) tin = .ok (.str cs)) :
    (check_patterns (.str fp) (.str cs) = .ok (some (rn, rem)) →
      (fp ++ "-" ++ rn) ∉ load_state (if dc then cleanup_old_state_files now fs else fs)
        (dictGetD fields "session_id" (.str "default")) →
      (Hook.main env dc now (some (.obj fields)) fs ok).1 = .exit 2 (some rem))
    ∧ (check_patterns (.str fp) (.str cs) = .ok none →
      (Hook.main env dc now (some (.obj fields)) fs ok).1 = .exit 0 none)
    ∧ (check_patterns (.str fp) (.str cs) = .ok (some (rn, rem)) →
      (fp ++ "-" ++ rn) ∈ load_state (if dc then cleanup_old_state_files now fs else fs)
        (dictGetD fields "session_id" (.str "default")) →
      (Hook.main env dc now (some (.obj fields)) fs ok).1 = .exit 0 none) := by
  have hme := main_edit_eq env dc now fs ok fields tin tname fp (.str cs)
    henv htool hmem htin hfp hfpne hext
  refine ⟨?_, ?_, ?_⟩
  · intro hcp hfresh
    obtain ⟨p, hpmem, hpn, hpr⟩ :=
      ruleFirstMatch_mem SECURITY_PATTERNS (lstripSlashes fp) (.str cs) rn rem hcp
    obtain ⟨hne1, hne2⟩ := mem_patterns_nonempty p hpmem
    rw [hpn] at hne1
    rw [hpr] at hne2
    have hcontains : ((load_state (if dc then cleanup_old_state_files now fs else fs)
        (dictGetD fields "session_id" (.str "default"))).contains (fp ++ "-" ++ rn)) = false := by
      simpa using hfresh
    rw [hme, hcp]
    simp [mainEditResult, hne1, hne2, hcontains, hfresh]
  · intro hcp
    rw [hme, hcp]
    simp [mainEditResult]
  · intro hcp hseen
    have hcontains : ((load_state (if dc then cleanup_old_state_files now fs else fs)
        (dictGetD fields "session_id" (.str "default"))).contains (fp ++ "-" ++ rn)) = true := by
      simpa using hseen
    rw [hme, hcp]
    simp [mainEditResult, hcontains, hseen]

/-- Witness for C1: a Write of content containing `pickle` to a fresh
session blocks with the pickle rule's reminder, and the same input with
the key already recorded allows. -/
theorem C1_witness :
    (Hook.main none false 0
      (some (.obj [("session_id", .str "s1"), ("tool_name", .str "Write"),
        ("tool_input", .obj [("file_path", .str "a.py"), ("content", .str "import pickle")])]))
      ⟨[]⟩ true).1
      = .exit 2 (some ((SECURITY_PATTERNS.get? 7).elim "" SecurityPattern.reminder))
    ∧ (Hook.main none false 0
      (some (.obj [("session_id", .str "s1"), ("tool_name", .str "Write"),
        ("tool_input", .obj [("file_path", .str "a.py"), ("content", .str "import pickle")])]))
      ⟨[(.str "s1", ⟨some ["a.py-pickle_deserialization"], 0⟩)]⟩ true).1
      = .exit 0 none := by
  constructor
  · exact (C1_edit_block_or_allow none false 0 ⟨[]⟩ true
      [("session_id", .str "s1"), ("tool_name", .str "Write"),
        ("tool_input", .obj [("file_path", .str "a.py"), ("content", .str "import pickle")])]
      [("file_path", .str "a.py"), ("content", .str "import pickle")]
      "Write" "a.py" "import pickle" "pickle_deserialization"
      ((SECURITY_PATTERNS.get? 7).elim "" SecurityPattern.reminder)
      rfl rfl (Or.inr (Or.inl rfl)) rfl rfl (by decide) rfl).1 rfl (by decide)
  · exact (C1_edit_block_or_allow none false 0
      ⟨[(.str "s1", ⟨some ["a.py-pickle_deserialization"], 0⟩)]⟩ true
      [("session_id", .str "s1"), ("tool_name", .str "Write"),
        ("tool_input", .obj [("file_path", .str "a.py"), ("content", .str "import pickle")])]
      [("file_path", .str "a.py"), ("content", .str "import pickle")]
      "Write" "a.py" "import pickle" "pickle_deserialization"
      ((SECURITY_PATTERNS.get? 7).elim "" SecurityPattern.reminder)
      rfl rfl (Or.inr (Or.inl rfl)) rfl rfl (by decide) rfl).2.2 rfl (by decide)

/-- Reading the session state right after a successful save returns the
saved keys. -/
theorem load_state_after_save (fs : FS) (sid : Json) (w : List String) (now : Int) :
    load_state (save_state true now fs sid w) sid = w := by
  simp only [save_state, if_true, load_state]
  rw [lookupF_setFile]
  rfl

/-- Reading the session state after a successful save followed by a
cleanup that does not evict the saved file returns the saved keys. -/
theorem load_state_after_save_cleanup (fs : FS) (sid : Json) (w : List String)
    (now now2 : Int) (h : ¬(now < now2 - THIRTY_DAYS)) :
    load_state (cleanup_old_state_files now2 (save_state true now fs sid w)) sid = w := by
  have hpred : (fun m : StateFile => !(decide (m.mtime < now2 - THIRTY_DAYS)))
      ⟨some w, now⟩ = true := by
    simpa using h
  have hlook : lookupF ((setFile fs.files sid ⟨some w, now⟩).filter
        (fun f => !(decide (f.2.mtime < now2 - THIRTY_DAYS)))) sid
      = some ⟨some w, now⟩ :=
    lookupF_filter_setFile fs.files sid ⟨some w, now⟩
      (fun m : StateFile => !(decide (m.mtime < now2 - THIRTY_DAYS))) hpred
  simp only [save_state, if_true, cleanup_old_state_files, load_state]
  rw [hlook]
  rfl

/-- C2: An invocation that blocks first synchronously persists the
composite key (file path + rule name) to the per-session state file
before exiting with code 2, and therefore any later invocation with the
same session id whose match yields the same key (and whose own cleanup
draw, if fired, does not evict a state file written more than thirty
days earlier) exits with code 0 instead of blocking again. -/
theorem C2_block_persists_then_allows
    (env : Option String) (dc : Bool) (now : Int) (fs : FS)
    (fields tin : List (String × Json)) (tname fp cs rn rem : String)
    (henv : (env.getD "1" == "0") = false)
    (htool : dictGetD fields "tool_name" (.str "") = .str tname)
    (hmem : tname = "Edit" ∨ tname = "Write" ∨ tname = "MultiEdit")
    (htin : dictGetD fields "tool_input" (.obj []) = .obj tin)
    (hfp : dictGetD tin "file_path" (.str "") = .str fp)
    (hfpne : fp ≠ "")
    (hext : extract_content_from_input (.str tname) tin = .ok (.str cs))
    (hcp : check_patterns (.str fp) (.str cs) = .ok (some (rn, rem)))
    (hfresh : (fp ++ "-" ++ rn) ∉ load_state (if dc then cleanup_old_state_files now fs else fs)
        (dictGetD fields "session_id" (.str "default"))) :
    (Hook.main env dc now (some (.obj fields)) fs true).1 = .exit 2 (some rem)
    ∧ (fp ++ "-" ++ rn) ∈ load_state (Hook.main env dc now (some (.obj fields)) fs true).2
        (dictGetD fields "session_id" (.str "default"))
    ∧ ∀ (env2 : Option String) (dc2 : Bool) (now2 : Int) (ok2 : Bool)
        (fields2 tin2 : List (String × Json)) (tname2 fp2 cs2 rn2 rem2 : String),
        dictGetD fields2 "tool_name" (.str "") = .str tname2 →
        (tname2 = "Edit" ∨ tname2 = "Write" ∨ tname2 = "MultiEdit") →
        dictGetD fields2 "tool_input" (.obj []) = .obj tin2 →
        dictGetD tin2 "file_path" (.str "") = .str fp2 →
        fp2 ≠ "" →
        extract_content_from_input (.str tname2) tin2 = .ok (.str cs2) →
        dictGetD fields2 "session_id" (.str "default")
          = dictGetD fields "session_id" (.str "default") →
        check_patterns (.str fp2) (.str cs2) = .ok (some (rn2, rem2)) →
        fp2 ++ "-" ++ rn2 = fp ++ "-" ++ rn →
        (dc2 = true → ¬(now < now2 - THIRTY_DAYS)) →
        (Hook.main env2 dc2 now2 (some (.obj fields2))
          (Hook.main env dc now (some (.obj fields)) fs true).2 ok2).1 = .exit 0 none := by
  have hme := main_edit_eq env dc now fs true fields tin tname fp (.str cs)
    henv htool hmem htin hfp hfpne hext
  obtain ⟨p, hpmem, hpn, hpr⟩ :=
    ruleFirstMatch_mem SECURITY_PATTERNS (lstripSlashes fp) (.str cs) rn rem hcp
  obtain ⟨hne1, hne2⟩ := mem_patterns_nonempty p hpmem
  rw [hpn] at hne1
  rw [hpr] at hne2
  have hcontains : ((load_state (if dc then cleanup_old_state_files now fs else fs)
      (dictGetD fields "session_id" (.str "default"))).contains (fp ++ "-" ++ rn)) = false := by
    simpa using hfresh
  have hrun1 : Hook.main env dc now (some (.obj fields)) fs true =
      (.exit 2 (some rem),
       save_state true now (if dc then cleanup_old_state_files now fs else fs)
         (dictGetD fields "session_id" (.str "default"))
         ((fp ++ "-" ++ rn) ::
           load_state (if dc then cleanup_old_state_files now fs else fs)
             (dictGetD fields "session_id" (.str "default")))) := by
    rw [hme, hcp]
    simp [mainEditResult, hne1, hne2, hcontains, hfresh]
  have hload2 : load_state (Hook.main env dc now (some (.obj fields)) fs true).2
      (dictGetD fields "session_id" (.str "default"))
      = (fp ++ "-" ++ rn) ::
        load_state (if dc then cleanup_old_state_files now fs else fs)
          (dictGetD fields "session_id" (.str "default")) := by
    rw [hrun1]
    exact load_state_after_save _ _ _ _
  refine ⟨by rw [hrun1], by rw [hload2]; exact List.mem_cons_self _ _, ?_⟩
  intro env2 dc2 now2 ok2 fields2 tin2 tname2 fp2 cs2 rn2 rem2
    htool2 hmem2 htin2 hfp2 hfpne2 hext2 hsid2 hcp2 hkey2 h30
  by_cases henv2 : (env2.getD "1" == "0") = true
  · simp [Hook.main, henv2]
  · simp only [Bool.not_eq_true] at henv2
    have hme2 := main_edit_eq env2 dc2 now2 (Hook.main env dc now (some (.obj fields)) fs true).2
      ok2 fields2 tin2 tname2 fp2 (.str cs2) henv2 htool2 hmem2 htin2 hfp2 hfpne2 hext2
    have hseen2 : (fp2 ++ "-" ++ rn2) ∈
        load_state (if dc2 then cleanup_old_state_files now2
            (Hook.main env dc now (some (.obj fields)) fs true).2
          else (Hook.main env dc now (some (.obj fields)) fs true).2)
        (dictGetD fields2 "session_id" (.str "default")) := by
      rw [hkey2, hsid2]
      cases dc2 with
      | false =>
        simp only [Bool.false_eq_true, if_false]
        rw [hload2]
        exact List.mem_cons_self _ _
      | true =>
        simp only [if_true]
        rw [hrun1]
        rw [load_state_after_save_cleanup _ _ _ _ _ (h30 rfl)]
        exact List.mem_cons_self _ _
    have hcontains2 : ((load_state (if dc2 then cleanup_old_state_files now2
            (Hook.main env dc now (some (.obj fields)) fs true).2
          else (Hook.main env dc now (some (.obj fields)) fs true).2)
        (dictGetD fields2 "session_id" (.str "default"))).contains (fp2 ++ "-" ++ rn2)) = true := by
      simpa using hseen2
    rw [hme2, hcp2]
    simp [mainEditResult, hcontains2, hseen2]

/-- Witness for C2: a Write of `import pickle` into a fresh session
blocks, and re-running the identical invocation against the filesystem
the first run produced allows. -/
theorem C2_witness :
    (Hook.main none false 0
      (some (.obj [("session_id", .str "s1"), ("tool_name", .str "Write"),
        ("tool_input", .obj [("file_path", .str "a.py"), ("content", .str "import pickle")])]))
      ⟨[]⟩ true).1
      = .exit 2 (some ((SECURITY_PATTERNS.get? 7).elim "" SecurityPattern.reminder))
    ∧ (Hook.main none false 0
      (some (.obj [("session_id", .str "s1"), ("tool_name", .str "Write"),
        ("tool_input", .obj [("file_path", .str "a.py"), ("content", .str "import pickle")])]))
      (Hook.main none false 0
        (some (.obj [("session_id", .str "s1"), ("tool_name", .str "Write"),
          ("tool_input", .obj [("file_path", .str "a.py"), ("content", .str "import pickle")])]))
        ⟨[]⟩ true).2 true).1
      = .exit 0 none := by
  have h := C2_block_persists_then_allows none false 0 ⟨[]⟩
    [("session_id", .str "s1"), ("tool_name", .str "Write"),
      ("tool_input", .obj [("file_path", .str "a.py"), ("content", .str "import pickle")])]
    [("file_path", .str "a.py"), ("content", .str "import pickle")]
    "Write" "a.py" "import pickle" "pickle_deserialization"
    ((SECURITY_PATTERNS.get? 7).elim "" SecurityPattern.reminder)
    rfl rfl (Or.inr (Or.inl rfl)) rfl rfl (by decide) rfl rfl (by decide)
  refine ⟨h.1, ?_⟩
  exact h.2.2 none false 0 true
    [("session_id", .str "s1"), ("tool_name", .str "Write"),
      ("tool_input", .obj [("file_path", .str "a.py"), ("content", .str "import pickle")])]
    [("file_path", .str "a.py"), ("content", .str "import pickle")]
    "Write" "a.py" "import pickle" "pickle_deserialization"
    ((SECURITY_PATTERNS.get? 7).elim "" SecurityPattern.reminder)
    rfl (Or.inr (Or.inl rfl)) rfl rfl (by decide) rfl rfl rfl rfl
    (fun hh => absurd hh (by decide))

/-- Generic first-match characterization: `find?` on a list split around
an element returns that element when nothing before it satisfies the
predicate and the element does. -/
theorem find?_append_first {α : Type} (pre post : List α) (a : α) (pred : α → Bool)
    (hpre : ∀ q ∈ pre, pred q = false) (ha : pred a = true) :
    (pre ++ a :: post).find? pred = some a := by
  induction pre with
  | nil =>
    simpa using List.find?_cons_of_pos post ha
  | cons q rest ih =>
    have hq : pred q = false := hpre q (by simp)
    have hstep : List.find? pred (q :: (rest ++ a :: post))
        = List.find? pred (rest ++ a :: post) :=
      List.find?_cons_of_neg (rest ++ a :: post) (by simp [hq])
    simpa [hstep] using ih (fun r hr => hpre r (by simp [hr]))

/-- C3: For every file path and content string, the rule matcher
evaluates the fixed rule list in its defined order and returns the name
and remediation text of the first rule that matches (path predicate on
the normalized path, or some trigger substring occurring in the
non-empty content), and returns no match when no rule matches; within
each rule the path condition is tested before the content substrings
(see `ruleFirstMatch`), and no severity ranking is applied. -/
theorem C3_first_match_no_ranking (fp c : String) :
    check_patterns (.str fp) (.str c) = .ok (matcherSpec fp c) := by
  simp only [check_patterns, matcherSpec]
  exact ruleFirstMatch_eq_find SECURITY_PATTERNS (lstripSlashes fp) c

/-- Counterexample to C4 as stated: the content `eval( pickle` contains
the configured trigger substring `pickle` of the rule
`pickle_deserialization`, yet the matcher returns `eval_injection` (the
earlier rule in the table), not that corresponding rule. -/
theorem C4_counterexample :
    ((SECURITY_PATTERNS.get? 7).map (fun p => (p.ruleName, p.substrings))
      = some ("pickle_deserialization", some ["pickle"]))
    ∧ strContains "eval( pickle" "pickle" = true
    ∧ (check_patterns (.str "a.py") (.str "eval( pickle")).map (fun o => o.map Prod.fst)
      = .ok (some "eval_injection")
    ∧ "eval_injection" ≠ "pickle_deserialization" :=
  ⟨rfl, rfl, rfl, by decide⟩

/-- C4 (amended): For any content string that contains a trigger
substring configured for some rule, the matcher returns that rule
provided no earlier rule in the table matches the (path, content) pair
(first match wins); and the resulting warning is surfaced at most once
per (path, rule) pair per session: once the composite key is in the
session state, the same invocation exits 0 instead of warning again. -/
theorem C4_first_trigger_rule
    (pre post : List SecurityPattern) (p : SecurityPattern) (subs : List String)
    (sub fp c : String)
    (hsplit : SECURITY_PATTERNS = pre ++ p :: post)
    (hsubs : p.substrings = some subs)
    (hsub : sub ∈ subs)
    (hsubne : sub ≠ "")
    (hocc : strContains c sub = true)
    (hpre : ∀ q ∈ pre, ruleMatches (lstripSlashes fp) c q = false) :
    check_patterns (.str fp) (.str c) = .ok (some (p.ruleName, p.reminder))
    ∧ ∀ (env : Option String) (dc : Bool) (now : Int) (fs : FS) (ok : Bool)
        (fields tin : List (String × Json)) (tname : String),
        (env.getD "1" == "0") = false →
        dictGetD fields "tool_name" (.str "") = .str tname →
        (tname = "Edit" ∨ tname = "Write" ∨ tname = "MultiEdit") →
        dictGetD fields "tool_input" (.obj []) = .obj tin →
        dictGetD tin "file_path" (.str "") = .str fp →
        fp ≠ "" →
        extract_content_from_input (.str tname) tin = .ok (.str c) →
        (fp ++ "-" ++ p.ruleName) ∈
          load_state (if dc then cleanup_old_state_files now fs else fs)
            (dictGetD fields "session_id" (.str "default")) →
        (Hook.main env dc now (some (.obj fields)) fs ok).1 = .exit 0 none := by
  have hcne : c.data.isEmpty = false := ne_empty_of_strContains c sub hsubne hocc
  have hmatch : ruleMatches (lstripSlashes fp) c p = true := by
    have hany : subs.any (fun s => strContains c s) = true :=
      List.any_eq_true.mpr ⟨sub, hsub, hocc⟩
    simp [ruleMatches, hsubs, hcne, hany]
  have hfind : SECURITY_PATTERNS.find? (ruleMatches (lstripSlashes fp) c) = some p := by
    rw [hsplit]
    exact find?_append_first pre post p _ hpre hmatch
  have hcp : check_patterns (.str fp) (.str c) = .ok (some (p.ruleName, p.reminder)) := by
    rw [show check_patterns (.str fp) (.str c)
        = ruleFirstMatch SECURITY_PATTERNS (lstripSlashes fp) (.str c) from rfl,
      ruleFirstMatch_eq_find, hfind]
    rfl
  refine ⟨hcp, ?_⟩
  intro env dc now fs ok fields tin tname henv htool hmem htin hfp hfpne hext hseen
  have hme := main_edit_eq env dc now fs ok fields tin tname fp (.str c)
    henv htool hmem htin hfp hfpne hext
  have hcontains : ((load_state (if dc then cleanup_old_state_files now fs else fs)
      (dictGetD fields "session_id" (.str "default"))).contains
      (fp ++ "-" ++ p.ruleName)) = true := by
    simpa using hseen
  rw [hme, hcp]
  simp [mainEditResult, hcontains, hseen]

/-- Witness for C4 (amended): `import pickle` in a file that no earlier
rule matches hits `pickle_deserialization`, and with the key already in
the session state the invocation allows. -/
theorem C4_witness :
    check_patterns (.str "x.txt") (.str "import pickle")
      = .ok (some (((SECURITY_PATTERNS.get? 7).getD ⟨"", none, none, ""⟩).ruleName,
          ((SECURITY_PATTERNS.get? 7).getD ⟨"", none, none, ""⟩).reminder))
    ∧ (Hook.main none false 0
        (some (.obj [("session_id", .str "s1"), ("tool_name", .str "Write"),
          ("tool_input", .obj [("file_path", .str "x.txt"),
            ("content", .str "import pickle")])]))
        ⟨[(.str "s1", ⟨some ["x.txt-pickle_deserialization"], 0⟩)]⟩ true).1
      = .exit 0 none := by
  have h := C4_first_trigger_rule (SECURITY_PATTERNS.take 7) (SECURITY_PATTERNS.drop 8)
    ((SECURITY_PATTERNS.get? 7).getD ⟨"", none, none, ""⟩) ["pickle"] "pickle"
    "x.txt" "import pickle" rfl rfl (by decide) (by decide) rfl (by decide)
  refine ⟨h.1, ?_⟩
  exact h.2 none false 0 ⟨[(.str "s1", ⟨some ["x.txt-pickle_deserialization"], 0⟩)]⟩ true
    [("session_id", .str "s1"), ("tool_name", .str "Write"),
      ("tool_input", .obj [("file_path", .str "x.txt"), ("content", .str "import pickle")])]
    [("file_path", .str "x.txt"), ("content", .str "import pickle")]
    "Write" rfl rfl (Or.inr (Or.inl rfl)) rfl rfl (by decide) rfl (by decide)

/-- Counterexample to C5 as stated: the input text `42` is valid JSON but
not a JSON object, so `input_data.get("session_id", "default")` raises an
uncaught `AttributeError`; the interpreter aborts with a traceback
instead of exiting 0 (or 2). -/
theorem C5_counterexample :
    (Hook.main none false 0 (some (.num 42)) ⟨[]⟩ true).1 = .crash
    ∧ Outcome.crash ≠ .exit 0 none
    ∧ Outcome.crash ≠ .exit 2 none :=
  ⟨rfl, by decide, by decide⟩

/-- C5 (amended): Standard input that is not parseable as JSON is
swallowed and mapped to exit 0; a filesystem error while saving the
session state does not change the exit code or the stderr text; and
every `sys.exit` the program performs uses code 0 or code 2.  However, a
valid-JSON input that is not a JSON object (or whose fields have
unexpected types) raises an uncaught exception and the interpreter
terminates with neither code (see the counterexample). -/
theorem C5_fail_open
    (env : Option String) (dc : Bool) (now : Int) (stdin : Option Json) (fs : FS) :
    (stdin = none → (Hook.main env dc now stdin fs true).1 = .exit 0 none)
    ∧ (Hook.main env dc now stdin fs false).1 = (Hook.main env dc now stdin fs true).1
    ∧ ∀ code msg, (Hook.main env dc now stdin fs true).1 = .exit code msg →
        code = 0 ∨ code = 2 := by
  refine ⟨?_, main_fst_saveOk env dc now stdin fs false true,
    fun code msg h => main_exit_code_cases env dc now stdin fs true code msg h⟩
  intro hnone
  subst hnone
  by_cases henv : (env.getD "1" == "0") = true
  · simp [Hook.main, henv]
  · simp only [Bool.not_eq_true] at henv
    simp [Hook.main, henv]

/-- Witness for C5 (amended): unparseable stdin at a concrete
configuration exits 0, saving and not saving agree, and the exit code is
one of 0 and 2. -/
theorem C5_witness :
    (Hook.main none false 0 none ⟨[]⟩ true).1 = .exit 0 none
    ∧ (Hook.main none false 0 none ⟨[]⟩ false).1 = (Hook.main none false 0 none ⟨[]⟩ true).1
    ∧ ((0 : Nat) = 0 ∨ (0 : Nat) = 2) := by
  have h := C5_fail_open none false 0 none ⟨[]⟩
  exact ⟨h.1 rfl, h.2.1, h.2.2 0 none (h.1 rfl)⟩

/-- C6: For every standard-input text that is not parseable as JSON
(modelled by `stdin = none`), the program exits with code 0. -/
theorem C6_unparseable_allows (env : Option String) (dc : Bool) (now : Int)
    (fs : FS) (ok : Bool) :
    (Hook.main env dc now none fs ok).1 = .exit 0 none := by
  by_cases henv : (env.getD "1" == "0") = true
  · simp [Hook.main, henv]
  · simp only [Bool.not_eq_true] at henv
    simp [Hook.main, henv]

/-- C7: When `ENABLE_SECURITY_REMINDER` is set to `0`, the program exits
with code 0 regardless of the standard input, the tool name, the file
path or the content, and leaves the filesystem untouched. -/
theorem C7_disabled_allows (dc : Bool) (now : Int) (stdin : Option Json)
    (fs : FS) (ok : Bool) :
    Hook.main (some "0") dc now stdin fs ok = (.exit 0 none, fs) := rfl

/-- Counterexample to C8 as stated: a valid JSON object with the
non-editing tool name `Bash` exits 0, but the invocation does NOT leave
the per-session dedup state unchanged: the probabilistic cleanup pass
(here the one-in-ten draw fired) removes a state file whose mtime is
more than thirty days old, so the stored session state goes from one
file to none. -/
theorem C8_counterexample :
    (Hook.main none true 2592001 (some (.obj [("tool_name", .str "Bash")]))
      ⟨[(.str "s", ⟨some ["k"], 0⟩)]⟩ true).1 = .exit 0 none
    ∧ (Hook.main none true 2592001 (some (.obj [("tool_name", .str "Bash")]))
      ⟨[(.str "s", ⟨some ["k"], 0⟩)]⟩ true).2.files = []
    ∧ [(Json.str "s", (⟨some ["k"], 0⟩ : StateFile))].length = 1 :=
  ⟨rfl, rfl, rfl⟩

/-- C8 (amended): For every valid JSON object input whose tool_name is
not one of Edit, Write, MultiEdit, the program exits with code 0; and
when the probabilistic cleanup draw does not fire, it leaves the
per-session dedup state unchanged (when the draw fires, the cleanup may
remove state files older than thirty days). -/
theorem C8_non_editing_allows
    (env : Option String) (dc : Bool) (now : Int) (fs : FS) (ok : Bool)
    (fields : List (String × Json))
    (hguard : (dictGetD fields "tool_name" (.str "") == Json.str "Edit"
      || dictGetD fields "tool_name" (.str "") == Json.str "Write"
      || dictGetD fields "tool_name" (.str "") == Json.str "MultiEdit") = false) :
    (Hook.main env dc now (some (.obj fields)) fs ok).1 = .exit 0 none
    ∧ (dc = false → Hook.main env dc now (some (.obj fields)) fs ok = (.exit 0 none, fs)) := by
  by_cases henv : (env.getD "1" == "0") = true
  · exact ⟨by simp [Hook.main, henv], fun _ => by simp [Hook.main, henv]⟩
  · simp only [Bool.not_eq_true] at henv
    constructor
    · simp [Hook.main, henv, hguard]
    · intro hdc
      subst hdc
      simp [Hook.main, henv, hguard]

/-- Witness for C8 (amended): a Bash invocation with the cleanup draw not
fired exits 0 and leaves the filesystem exactly as it was. -/
theorem C8_witness :
    (Hook.main none false 0 (some (.obj [("tool_name", .str "Bash")]))
      ⟨[(.str "s", ⟨some ["k"], 0⟩)]⟩ true)
      = (.exit 0 none, (⟨[(.str "s", ⟨some ["k"], 0⟩)]⟩ : FS)) := by
  have h := C8_non_editing_allows none false 0 ⟨[(.str "s", ⟨some ["k"], 0⟩)]⟩ true
    [("tool_name", .str "Bash")] (by decide)
  exact h.2 rfl

/-- Counterexample to C9 as stated: an invocation on which the one-in-ten
random draw does not fire removes nothing: a state file more than thirty
days old survives the run. -/
theorem C9_counterexample :
    (Hook.main none false 10000000 none ⟨[(.str "s", ⟨some [], 0⟩)]⟩ true).2.files
      = [(.str "s", ⟨some [], 0⟩)]
    ∧ ((0 : Int) < 10000000 - THIRTY_DAYS) :=
  ⟨rfl, by decide⟩

/-- C9 (amended): On invocations where the check is enabled and the
one-in-ten random cleanup draw fires, every persisted per-session state
file whose modification time is more than thirty days old is removed:
no file of the resulting state directory is that old (a file written by
this very run carries the current time). -/
theorem C9_cleanup_when_drawn
    (env : Option String) (now : Int) (stdin : Option Json) (fs : FS) (ok : Bool)
    (henv : (env.getD "1" == "0") = false) :
    ((Hook.main env true now stdin fs ok).2.files.all
      (fun e => !(decide (e.2.mtime < now - THIRTY_DAYS)))) = true := by
  rcases main_snd_cases env now stdin fs ok henv with h | ⟨sid, w, h⟩
  · rw [h, List.all_eq_true]
    intro e he
    simpa using cleanup_no_stale now fs e he
  · rw [h, List.all_eq_true]
    intro e he
    simpa using save_state_no_stale ok now (cleanup_old_state_files now fs) sid w
      (cleanup_no_stale now fs) e he

/-- Witness for C9 (amended): with the draw fired, a thirty-day-old state
file does not survive the run. -/
theorem C9_witness :
    ((Hook.main none true 10000000 none ⟨[(.str "s", ⟨some [], 0⟩)]⟩ true).2.files.all
      (fun e => !(decide (e.2.mtime < 10000000 - THIRTY_DAYS)))) = true :=
  C9_cleanup_when_drawn none 10000000 none ⟨[(.str "s", ⟨some [], 0⟩)]⟩ true rfl

/-- Counterexample to C10 as stated: with an editing tool name, a risky
content string and no file_path field, the program exits 0 without
matching, but it does touch session state when the cleanup draw fires:
a stale state file is removed by the same invocation. -/
theorem C10_counterexample :
    strContains "eval(x)" "eval(" = true
    ∧ (Hook.main none true 2592001
        (some (.obj [("tool_name", .str "Write"),
          ("tool_input", .obj [("content", .str "eval(x)")])]))
        ⟨[(.str "s", ⟨some ["k"], 0⟩)]⟩ true).1 = .exit 0 none
    ∧ (Hook.main none true 2592001
        (some (.obj [("tool_name", .str "Write"),
          ("tool_input", .obj [("content", .str "eval(x)")])]))
        ⟨[(.str "s", ⟨some ["k"], 0⟩)]⟩ true).2.files = []
    ∧ [(Json.str "s", (⟨some ["k"], 0⟩ : StateFile))].length = 1 :=
  ⟨rfl, rfl, rfl, rfl⟩

/-- C10 (amended): For every valid JSON object input with an editing
tool_name (Edit, Write or MultiEdit), if tool_input has no file_path
field or its value is falsy (in particular the empty string), the
program exits with code 0 without matching any rule, even when the new
content contains a configured risky substring; and when the cleanup draw
does not fire, the session state is left unchanged. -/
theorem C10_no_file_path_allows
    (env : Option String) (dc : Bool) (now : Int) (fs : FS) (ok : Bool)
    (fields tin : List (String × Json)) (tname : String)
    (htool : dictGetD fields "tool_name" (.str "") = .str tname)
    (hmem : tname = "Edit" ∨ tname = "Write" ∨ tname = "MultiEdit")
    (htin : dictGetD fields "tool_input" (.obj []) = .obj tin)
    (hfp : pyFalsy (dictGetD tin "file_path" (.str "")) = true) :
    (Hook.main env dc now (some (.obj fields)) fs ok).1 = .exit 0 none
    ∧ (dc = false → Hook.main env dc now (some (.obj fields)) fs ok = (.exit 0 none, fs)) := by
  have hguard : (Json.str tname == Json.str "Edit" || Json.str tname == Json.str "Write"
      || Json.str tname == Json.str "MultiEdit") = true := by
    rcases hmem with rfl | rfl | rfl <;> decide
  by_cases henv : (env.getD "1" == "0") = true
  · exact ⟨by simp [Hook.main, henv], fun _ => by simp [Hook.main, henv]⟩
  · simp only [Bool.not_eq_true] at henv
    constructor
    · simp [Hook.main, henv, htool, htin, hfp, hguard]
    · intro hdc
      subst hdc
      simp [Hook.main, henv, htool, htin, hfp, hguard]

/-- Witness for C10 (amended): a Write with risky content and no
file_path, with the cleanup draw not fired, exits 0 and leaves the
filesystem exactly as it was. -/
theorem C10_witness :
    (Hook.main none false 0
      (some (.obj [("tool_name", .str "Write"),
        ("tool_input", .obj [("content", .str "eval(x)")])])) ⟨[]⟩ true)
      = (.exit 0 none, (⟨[]⟩ : FS)) := by
  have h := C10_no_file_path_allows none false 0 ⟨[]⟩ true
    [("tool_name", .str "Write"), ("tool_input", .obj [("content", .str "eval(x)")])]
    [("content", .str "eval(x)")] "Write" rfl (Or.inr (Or.inl rfl)) rfl rfl
  exact h.2 rfl
